import Mathlib

/-!
Verification of the MuMu12 IPC driver
(`src/arknights_mower/utils/device/mumu12ipc/core.py`).

The driver is embedded shallowly: every externally visible effect of the
Python code (subprocess management queries, native DLL calls, the owning
device's `exit()` / `check_current_focus()` callbacks, `restart_simulator()`)
is supplied by an oracle `Env`, indexed by a tick counter that advances on
each external interaction.  The mutable driver object (`self._conn`,
`self._display_id`, `self._is_new_coord`) together with the tick, the trace
of native DLL calls issued so far and the number of `device.exit()`
invocations forms the execution context `Ctx`.  Each Python method becomes a
function `Env → Ctx → Except PyExc α × Ctx`.

`MowerExit` is defined in `arknights_mower/utils/csleep.py`, outside the
embedded file; following its use sites (an explicit `except MowerExit: raise`
clause placed in front of `except Exception` handlers, both here and in
`solvers/base_mixin.py`) it is modelled as an ordinary exception that
catch-all handlers do catch unless a dedicated re-raise clause precedes them.
-/

set_option autoImplicit false

namespace Nower

/-- Python exceptions raised by the driver, one constructor per raise site:
`MowerExit` (the distinguished cancellation error), the two generic
`Exception`s raised by `connect` (emulator not running / native connect
returned handle 0), the `RuntimeError` raised by `get_display_id` on
timeout, `MuMuIpcError` (a `RuntimeError` subclass), `ValueError` and
`TypeError`, plus a catch-all for errors produced by external collaborators
(the management subprocess, `device.exit`, `restart_simulator`). -/
inductive PyExc where
  | mowerExit
  | emulatorNotRunning
  | connectionRefused
  | displayTimeout
  | ipcError (msg : String)
  | runtimeError (msg : String)
  | valueError (msg : String)
  | typeError (msg : String)
  | otherError (msg : String)
deriving DecidableEq, Repr

instance {ε α : Type} [DecidableEq ε] [DecidableEq α] : DecidableEq (Except ε α) := fun x y =>
  match x, y with
  | .ok a, .ok b =>
      if h : a = b then isTrue (by rw [h])
      else isFalse (by intro hh; cases hh; exact h rfl)
  | .error a, .error b =>
      if h : a = b then isTrue (by rw [h])
      else isFalse (by intro hh; cases hh; exact h rfl)
  | .ok _, .error _ => isFalse (by intro hh; cases hh)
  | .error _, .ok _ => isFalse (by intro hh; cases hh)

/-- Whether the exception is a Python `RuntimeError` (or subclass).
`MuMuIpcError(RuntimeError)` and the display-timeout `RuntimeError` are;
the generic `Exception`s raised by `connect` are not.  `retry_wrapper`
dispatches on this: `RuntimeError`s go to the `check_current_focus` branch,
other exceptions to the invalidate-and-restart branch. -/
def PyExc.isRuntimeError : PyExc → Bool
  | .displayTimeout => true
  | .ipcError _ => true
  | .runtimeError _ => true
  | _ => false

/-- Structured `info` management-query output consumed by `_emu_state`
(truthiness of `is_android_started` / `is_process_started`, equality of
`player_state` with the string marking a finished launch). -/
structure InfoData where
  is_android_started : Bool
  player_state : Option String
  is_process_started : Bool
deriving DecidableEq, Repr

/-- Model of `MuMu12IPC._emu_state`: classify the queried info into
`"running" | "launching" | "stopped"`. -/
def emuStateOf (d : InfoData) : String :=
  if d.is_android_started || (d.player_state == some "start_finished") then
    "running"
  else if d.is_process_started then "launching"
  else "stopped"

/-- A numpy image as produced by the capture pipeline: shape metadata plus a
pixel accessor (row, column, channel). -/
structure Image where
  height : Nat
  width : Nat
  channels : Nat
  pix : Nat → Nat → Nat → Nat

/-- Screen width `MuMu12IPC._W`. -/
def screenW : Nat := 1920

/-- Screen height `MuMu12IPC._H`. -/
def screenH : Nat := 1080

/-- Model of `np.frombuffer(self._buffer, dtype=np.uint8).reshape((H, W, 4))[:, :, :3]`:
reinterpret the raw capture buffer as height x width x 4 and drop the fourth
(alpha) channel. -/
def frameFromBuffer (buf : Nat → Nat) : Image :=
  { height := screenH
    width := screenW
    channels := 3
    pix := fun i j c => buf ((i * screenW + j) * 4 + c) }

/-- Model of `np.flipud`: flip the vertical axis. -/
def flipud (img : Image) : Image :=
  { img with pix := fun i j c => img.pix (img.height - 1 - i) j c }

/-- Model of `np.zeros((self._H, self._W, 3), dtype=np.uint8)`. -/
def zerosImage : Image :=
  { height := screenH, width := screenW, channels := 3
    pix := fun _ _ _ => 0 }

/-- One native DLL call (`nemu_*`) with the arguments passed to it. -/
inductive NCall where
  | nConnect
  | nGetDisplayId (conn : Int) (appIndex : Int)
  | nCaptureDisplay (conn disp : Int)
  | nTouchDown (conn disp x y : Int)
  | nTouchUp (conn disp : Int)
  | nFingerTouchDown (conn disp finger x y : Int)
  | nFingerTouchUp (conn disp finger : Int)
  | nKeyDown (conn disp code : Int)
  | nKeyUp (conn disp code : Int)
deriving DecidableEq, Repr

/-- The mutable fields of the `MuMu12IPC` object that the claims are about:
`_conn` (session handle, 0 = invalid), `_display_id` (-1 = invalid) and the
cached coordinate-convention flag `_is_new_coord`. -/
structure DriverState where
  conn : Int
  displayId : Int
  isNewCoord : Option Bool
deriving DecidableEq, Repr

/-- Execution context: driver state, oracle tick, trace of native DLL calls
issued so far, and how many times `self.device.exit()` has been invoked. -/
structure Ctx where
  st : DriverState
  tick : Nat
  trace : List NCall
  exits : Nat
deriving DecidableEq, Repr

/-- Advance the oracle tick by one (one external interaction consumed). -/
def bump (c : Ctx) : Ctx := { c with tick := c.tick + 1 }

/-- Oracle for every external effect, indexed by tick: the two management
queries (`info` for `_emu_state`, `setting` as an association list for
`_emu_version`), results of the native DLL calls, the capture buffer
contents filled in by `nemu_capture_display`, the owning device's `exit` and
`check_current_focus` callbacks, `restart_simulator`, and the
float-computed swipe interpolation (IEEE arithmetic abstracted as data). -/
structure Env where
  info : Nat → Except PyExc InfoData
  setting : Nat → Except PyExc (List (String × String))
  connectRet : Nat → Int
  displayRet : Nat → Int
  captureRet : Nat → Int
  buf : Nat → Nat → Nat
  inputRet : Nat → Int
  exitBeh : Nat → Except PyExc Unit
  focusBeh : Nat → Except PyExc Unit
  restartBeh : Nat → Except PyExc Unit
  interpXY : Int → Int → Int → Int → Nat → Nat → Int × Int

/-- Python tuple comparison `parts >= threshold` (lexicographic; a strict
prefix of the other tuple is the smaller one). -/
def tupleGe : List Int → List Int → Bool
  | _, [] => true
  | [], _ :: _ => false
  | a :: as, b :: bs => if a > b then true else if a < b then false else tupleGe as bs

/-- The fixed version threshold `(4, 1, 21)` at which MuMu 12 changed its
coordinate arguments. -/
def verThreshold : List Int := [4, 1, 21]

/-- Model of `str(data.get("core_version", "0.0.0"))`: the version string from the
`setting` query data, defaulting to `"0.0.0"` when the key is missing. -/
def coreVersionOf (data : List (String × String)) : String :=
  (data.lookup "core_version").getD "0.0.0"

/-- Helper for `version.split(".")`: split a character list at every dot. -/
def splitDotsAux : List Char → List Char → List String
  | [], acc => [String.mk acc.reverse]
  | ch :: cs, acc =>
      if ch = '.' then String.mk acc.reverse :: splitDotsAux cs []
      else splitDotsAux cs (ch :: acc)

/-- Python `version.split(".")`. -/
def splitDots (s : String) : List String := splitDotsAux s.data []

/-- Decimal value of a digit character, `none` for non-digits. -/
def digitVal (ch : Char) : Option Nat :=
  if ch.isDigit then some (ch.toNat - 48) else none

/-- Parse an unsigned decimal numeral; `none` on the empty string or any
non-digit character. -/
def parseNatChars : List Char → Option Nat → Option Nat
  | [], acc => acc
  | ch :: cs, acc =>
      match digitVal ch, acc with
      | some d, some n => parseNatChars cs (some (n * 10 + d))
      | some d, none => parseNatChars cs (some d)
      | none, _ => none

/-- Python `int(x)` restricted to optionally signed decimal numerals (the
shape version-string components take); anything else is a parse failure,
as Python `int` raises `ValueError`. -/
def pyInt (s : String) : Option Int :=
  match s.data with
  | '-' :: rest => (parseNatChars rest none).map (fun n => -(n : Int))
  | '+' :: rest => (parseNatChars rest none).map (fun n => (n : Int))
  | ds => (parseNatChars ds none).map (fun n => (n : Int))

/-- Model of `tuple(int(x) for x in version.split(".")[:3])`: split on dots, keep at
most three components, parse each with `int` (failure of any component makes
the whole parse fail, as Python `int` raises `ValueError`). -/
def parseParts (s : String) : Option (List Int) :=
  ((splitDots s).take 3).mapM pyInt

/-- The body of `_map_xy` after the convention is resolved:
`if self._is_new_coord: return int(x), int(y)` else
`return int(self._H - y), int(x)`  (Python truthiness: `None` and `False`
both select the legacy branch). -/
def mapxyFlag (flag : Option Bool) (x y : Int) : Int × Int :=
  if flag = some true then (x, y) else ((screenH : Int) - y, x)

/-- The coordinate mapping obtained from a freshly resolved version triple
`(a, b, c)`: resolve `parts >= (4, 1, 21)` and apply `_map_xy`. -/
def mapAfterResolve (a b c x y : Int) : Int × Int :=
  mapxyFlag (some (tupleGe [a, b, c] verThreshold)) x y

/-- Model of `MuMu12IPC._emu_state()`: one `info` management query, classified. -/
def emuStateM (env : Env) (c : Ctx) : Except PyExc String × Ctx :=
  match env.info c.tick with
  | .error e => (.error e, bump c)
  | .ok d => (.ok (emuStateOf d), bump c)

/-- Model of `MuMu12IPC.connect()`: require the emulator to be running, then call
`nemu_connect`; the handle is stored in `self._conn` before the zero check,
and a zero handle raises the connection-refused `Exception`. -/
def connectM (env : Env) (c : Ctx) : Except PyExc Unit × Ctx :=
  match emuStateM env c with
  | (.error e, c1) => (.error e, c1)
  | (.ok s, c1) =>
      if s ≠ "running" then (.error .emulatorNotRunning, c1)
      else
        let h := env.connectRet c1.tick
        let c2 : Ctx :=
          { c1 with st := { c1.st with conn := h }
                    tick := c1.tick + 1
                    trace := c1.trace ++ [NCall.nConnect] }
        if h = 0 then (.error .connectionRefused, c2) else (.ok (), c2)

/-- The polling loop of `MuMu12IPC.get_display_id()`: each iteration stores
the result of `nemu_get_display_id` into `self._display_id`, succeeds on a
non-negative value and otherwise sleeps 1s and retries; the 20-second budget
is modelled as 20 polls, after which the timeout `RuntimeError` is raised. -/
def getDisplayIdLoop (env : Env) : Nat → Ctx → Except PyExc Unit × Ctx
  | 0, c => (.error .displayTimeout, c)
  | fuel + 1, c =>
      let r := env.displayRet c.tick
      let c1 : Ctx :=
        { c with st := { c.st with displayId := r }
                 tick := c.tick + 1
                 trace := c.trace ++ [NCall.nGetDisplayId c.st.conn 0] }
      if 0 ≤ r then (.ok (), c1)
      else getDisplayIdLoop env fuel c1

/-- Model of `MuMu12IPC.get_display_id()`. -/
def getDisplayIdM (env : Env) (c : Ctx) : Except PyExc Unit × Ctx :=
  getDisplayIdLoop env 20 c

/-- The body of `MuMu12IPC._ensure_ready()` (before the retry decorator):
connect when the handle is invalid, then acquire a display id when it is
invalid. -/
def ensureBodyM (env : Env) (c : Ctx) : Except PyExc Unit × Ctx :=
  match (if c.st.conn = 0 then connectM env c else (.ok (), c)) with
  | (.error e, c1) => (.error e, c1)
  | (.ok _, c1) =>
      if c1.st.displayId < 0 then getDisplayIdM env c1 else (.ok (), c1)

/-- The loop of `retry_wrapper(3)` around `_ensure_ready`: `MowerExit`
passes through unretried; a `RuntimeError` triggers the best-effort
`device.check_current_focus()` probe (its exceptions swallowed); any other
exception resets `_conn`/`_display_id` and calls `restart_simulator()`
(exceptions swallowed); exhaustion re-raises the last exception. -/
def retryLoop (env : Env) (last : Option PyExc) :
    Nat → Ctx → Except PyExc Unit × Ctx
  | 0, c =>
      match last with
      | some e => (.error e, c)
      | none => (.error (.runtimeError "failed after retries"), c)
  | fuel + 1, c =>
      match ensureBodyM env c with
      | (.ok a, c1) => (.ok a, c1)
      | (.error .mowerExit, c1) => (.error .mowerExit, c1)
      | (.error e, c1) =>
          if e.isRuntimeError then
            retryLoop env (some e) fuel (bump c1)
          else
            let c2 : Ctx :=
              { c1 with st := { c1.st with conn := 0, displayId := -1 }
                        tick := c1.tick + 1 }
            retryLoop env (some e) fuel c2

/-- Model of `MuMu12IPC._ensure_ready()` with its `@retry_wrapper(3)` decorator. -/
def ensureReadyM (env : Env) (c : Ctx) : Except PyExc Unit × Ctx :=
  retryLoop env none 3 c

/-- Model of `MuMu12IPC._emu_version()`: one `setting` management query; the version
string defaults to `"0.0.0"` when the `core_version` key is absent; the
parsed triple is cached into `self._is_new_coord` (compared against the
`(4, 1, 21)` threshold) only when the flag is still unresolved. -/
def emuVersionM (env : Env) (c : Ctx) : Except PyExc (List Int) × Ctx :=
  match env.setting c.tick with
  | .error e => (.error e, bump c)
  | .ok data =>
      match parseParts (coreVersionOf data) with
      | none => (.error (.valueError "invalid literal for int"), bump c)
      | some parts =>
          let c1 := bump c
          let c2 : Ctx :=
            if c1.st.isNewCoord = none then
              { c1 with st := { c1.st with isNewCoord := some (tupleGe parts verThreshold) } }
            else c1
          (.ok parts, c2)

/-- Model of `MuMu12IPC._map_xy(x, y)`: resolve the coordinate convention on first
need via `_emu_version` (its exceptions propagate), then map. -/
def mapXYM (env : Env) (x y : Int) (c : Ctx) : Except PyExc (Int × Int) × Ctx :=
  match c.st.isNewCoord with
  | none =>
      match emuVersionM env c with
      | (.error e, c1) => (.error e, c1)
      | (.ok _, c1) => (.ok (mapxyFlag c1.st.isNewCoord x y), c1)
  | some _ => (.ok (mapxyFlag c.st.isNewCoord x y), c)

/-- The shared `except Exception` handler of the six input-event methods:
on any failure of the try body, reset `self._conn = 0` and
`self._display_id = -1`, then call `self.device.exit()`.  The handler does
not re-raise; the method returns normally unless `device.exit()` itself
raises. -/
def withExitOnError (env : Env) (r : Except PyExc Unit × Ctx) :
    Except PyExc Unit × Ctx :=
  match r with
  | (.ok a, c) => (.ok a, c)
  | (.error _, c) =>
      let c1 : Ctx :=
        { c with st := { c.st with conn := 0, displayId := -1 }
                 tick := c.tick + 1
                 exits := c.exits + 1 }
      (env.exitBeh c.tick, c1)

/-- Try body of `MuMu12IPC.touch_down(x, y)`: ensure readiness, map the
coordinates, issue `nemu_input_event_touch_down`, raise `MuMuIpcError` on a
non-zero return code. -/
def touchDownTry (env : Env) (x y : Int) (c : Ctx) : Except PyExc Unit × Ctx :=
  match ensureReadyM env c with
  | (.error e, c1) => (.error e, c1)
  | (.ok _, c1) =>
      match mapXYM env x y c1 with
      | (.error e, c2) => (.error e, c2)
      | (.ok (tx, ty), c2) =>
          let rc := env.inputRet c2.tick
          let c3 : Ctx :=
            { c2 with tick := c2.tick + 1
                      trace := c2.trace ++ [NCall.nTouchDown c2.st.conn c2.st.displayId tx ty] }
          if rc = 0 then (.ok (), c3) else (.error (.ipcError "touch_down failed"), c3)

/-- Model of `MuMu12IPC.touch_down(x, y)`. -/
def touchDownM (env : Env) (x y : Int) (c : Ctx) : Except PyExc Unit × Ctx :=
  withExitOnError env (touchDownTry env x y c)

/-- Try body of `MuMu12IPC.touch_up()`. -/
def touchUpTry (env : Env) (c : Ctx) : Except PyExc Unit × Ctx :=
  match ensureReadyM env c with
  | (.error e, c1) => (.error e, c1)
  | (.ok _, c1) =>
      let rc := env.inputRet c1.tick
      let c2 : Ctx :=
        { c1 with tick := c1.tick + 1
                  trace := c1.trace ++ [NCall.nTouchUp c1.st.conn c1.st.displayId] }
      if rc = 0 then (.ok (), c2) else (.error (.ipcError "touch_up failed"), c2)

/-- Model of `MuMu12IPC.touch_up()`. -/
def touchUpM (env : Env) (c : Ctx) : Except PyExc Unit × Ctx :=
  withExitOnError env (touchUpTry env c)

/-- Try body of `MuMu12IPC.key_down(key_code)` (no coordinate mapping). -/
def keyDownTry (env : Env) (code : Int) (c : Ctx) : Except PyExc Unit × Ctx :=
  match ensureReadyM env c with
  | (.error e, c1) => (.error e, c1)
  | (.ok _, c1) =>
      let rc := env.inputRet c1.tick
      let c2 : Ctx :=
        { c1 with tick := c1.tick + 1
                  trace := c1.trace ++ [NCall.nKeyDown c1.st.conn c1.st.displayId code] }
      if rc = 0 then (.ok (), c2) else (.error (.ipcError "key_down failed"), c2)

/-- Model of `MuMu12IPC.key_down(key_code)`. -/
def keyDownM (env : Env) (code : Int) (c : Ctx) : Except PyExc Unit × Ctx :=
  withExitOnError env (keyDownTry env code c)

/-- Try body of `MuMu12IPC.key_up(key_code)`. -/
def keyUpTry (env : Env) (code : Int) (c : Ctx) : Except PyExc Unit × Ctx :=
  match ensureReadyM env c with
  | (.error e, c1) => (.error e, c1)
  | (.ok _, c1) =>
      let rc := env.inputRet c1.tick
      let c2 : Ctx :=
        { c1 with tick := c1.tick + 1
                  trace := c1.trace ++ [NCall.nKeyUp c1.st.conn c1.st.displayId code] }
      if rc = 0 then (.ok (), c2) else (.error (.ipcError "key_up failed"), c2)

/-- Model of `MuMu12IPC.key_up(key_code)`. -/
def keyUpM (env : Env) (code : Int) (c : Ctx) : Except PyExc Unit × Ctx :=
  withExitOnError env (keyUpTry env code c)

/-- Try body of `MuMu12IPC.finger_touch_down(finger_id, x, y)`. -/
def fingerTouchDownTry (env : Env) (fid x y : Int) (c : Ctx) :
    Except PyExc Unit × Ctx :=
  match ensureReadyM env c with
  | (.error e, c1) => (.error e, c1)
  | (.ok _, c1) =>
      match mapXYM env x y c1 with
      | (.error e, c2) => (.error e, c2)
      | (.ok (tx, ty), c2) =>
          let rc := env.inputRet c2.tick
          let c3 : Ctx :=
            { c2 with tick := c2.tick + 1
                      trace := c2.trace ++
                        [NCall.nFingerTouchDown c2.st.conn c2.st.displayId fid tx ty] }
          if rc = 0 then (.ok (), c3)
          else (.error (.ipcError "finger_touch_down failed"), c3)

/-- Model of `MuMu12IPC.finger_touch_down(finger_id, x, y)`. -/
def fingerTouchDownM (env : Env) (fid x y : Int) (c : Ctx) :
    Except PyExc Unit × Ctx :=
  withExitOnError env (fingerTouchDownTry env fid x y c)

/-- Try body of `MuMu12IPC.finger_touch_up(finger_id)`. -/
def fingerTouchUpTry (env : Env) (fid : Int) (c : Ctx) : Except PyExc Unit × Ctx :=
  match ensureReadyM env c with
  | (.error e, c1) => (.error e, c1)
  | (.ok _, c1) =>
      let rc := env.inputRet c1.tick
      let c2 : Ctx :=
        { c1 with tick := c1.tick + 1
                  trace := c1.trace ++
                    [NCall.nFingerTouchUp c1.st.conn c1.st.displayId fid] }
      if rc = 0 then (.ok (), c2) else (.error (.ipcError "finger_touch_up failed"), c2)

/-- Model of `MuMu12IPC.finger_touch_up(finger_id)`. -/
def fingerTouchUpM (env : Env) (fid : Int) (c : Ctx) : Except PyExc Unit × Ctx :=
  withExitOnError env (fingerTouchUpTry env fid c)

/-- The six input-event operations of the claims, as one dispatchable type. -/
inductive InputOp where
  | touchDown (x y : Int)
  | touchUp
  | keyDown (code : Int)
  | keyUp (code : Int)
  | fingerTouchDown (fid x y : Int)
  | fingerTouchUp (fid : Int)
deriving DecidableEq, Repr

/-- Dispatch an `InputOp` to the corresponding method. -/
def runInput : InputOp → Env → Ctx → Except PyExc Unit × Ctx
  | .touchDown x y, env, c => touchDownM env x y c
  | .touchUp, env, c => touchUpM env c
  | .keyDown code, env, c => keyDownM env code c
  | .keyUp code, env, c => keyUpM env code c
  | .fingerTouchDown fid x y, env, c => fingerTouchDownM env fid x y c
  | .fingerTouchUp fid, env, c => fingerTouchUpM env fid c

/-- Model of `MuMu12IPC.tap(x, y, hold_time)`: `touch_down`, blocking hold (a pure
sleep, no effect in the model), `touch_up`. -/
def tapM (env : Env) (x y : Int) (c : Ctx) : Except PyExc Unit × Ctx :=
  match touchDownM env x y c with
  | (.error e, c1) => (.error e, c1)
  | (.ok _, c1) => touchUpM env c1

/-- The interpolation loop of `MuMu12IPC.swipe`:
`for i in range(1, steps + 1)` issue `touch_down` at the interpolated point
(the float computation `int(x0 + (x1 - x0) * (i / steps))` is supplied by
the oracle `Env.interpXY`) and sleep `duration / steps`. -/
def swipeStepsLoop (env : Env) (x0 y0 x1 y1 : Int) (steps : Nat) :
    Nat → Ctx → Except PyExc Unit × Ctx
  | 0, c => (.ok (), c)
  | fuel + 1, c =>
      let i := steps - fuel
      let txy := env.interpXY x0 y0 x1 y1 i steps
      match touchDownM env txy.1 txy.2 c with
      | (.error e, c1) => (.error e, c1)
      | (.ok _, c1) => swipeStepsLoop env x0 y0 x1 y1 steps fuel c1

/-- Model of `MuMu12IPC.swipe(x0, y0, x1, y1, duration, steps, fall, lift, interval)`:
`touch_down` at the start point when `fall`, the interpolation loop, then
(after an optional `interval` sleep) `touch_up` when `lift`.  `duration`
and `interval` only feed sleeps and so do not appear. -/
def swipeM (env : Env) (x0 y0 x1 y1 : Int) (steps : Nat) (fall lift : Bool)
    (c : Ctx) : Except PyExc Unit × Ctx :=
  match (if fall then touchDownM env x0 y0 c else (.ok (), c)) with
  | (.error e, c1) => (.error e, c1)
  | (.ok _, c1) =>
      match swipeStepsLoop env x0 y0 x1 y1 steps steps c1 with
      | (.error e, c2) => (.error e, c2)
      | (.ok _, c2) => if lift then touchUpM env c2 else (.ok (), c2)

/-- The parameter names of `MuMu12IPC.swipe`, from its `def` line. -/
def swipeParamNames : List String :=
  ["x0", "y0", "x1", "y1", "duration", "steps", "fall", "lift", "interval"]

/-- The keyword-argument names `swipe_ext` passes to `self.swipe(...)`. -/
def swipeExtKwargNames : List String :=
  ["duration", "fall", "lift", "update", "interval", "func"]

/-- The first keyword argument of the `self.swipe(...)` call in `swipe_ext`
that `swipe`'s signature does not accept; Python raises
`TypeError: swipe() got an unexpected keyword argument ...` for it before
executing `swipe`'s body. -/
def firstBadSwipeKwarg : Option String :=
  swipeExtKwargNames.find? (fun k => !(swipeParamNames.contains k))

/-- The segment loop of `MuMu12IPC.swipe_ext`:
`for i, (p0, p1, d_ms) in enumerate(zip(points[:-1], points[1:], durations))`
calls `self.swipe(...)` with `fall=(i == 0)`, `lift=(i == len(durations)-1)`
and the extra keyword arguments `update=` and `func=`.  Argument binding is
checked before the callee body runs, so an unexpected keyword argument
raises `TypeError` at the first iteration. -/
def swipeExtSegs (env : Env) (n : Nat) :
    List (Nat × ((Int × Int) × (Int × Int)) × Int) → Ctx →
    Except PyExc Unit × Ctx
  | [], c => (.ok (), c)
  | (i, (p0, p1), _) :: rest, c =>
      match firstBadSwipeKwarg with
      | some k =>
          (.error (.typeError ("swipe got an unexpected keyword argument " ++ k)), c)
      | none =>
          match swipeM env p0.1 p0.2 p1.1 p1.2 30 (i = 0) (i + 1 = n) c with
          | (.error e, c1) => (.error e, c1)
          | (.ok _, c1) => swipeExtSegs env n rest c1

/-- Model of `MuMu12IPC.swipe_ext(points, durations, update, interval, func)`:
validate the gesture spec, then run the segment loop. -/
def swipeExtM (env : Env) (points : List (Int × Int)) (durations : List Int)
    (c : Ctx) : Except PyExc Unit × Ctx :=
  if points.length < 2 ∨ (durations.length : Int) ≠ (points.length : Int) - 1 then
    (.error (.valueError
      "swipe_ext requires at least 2 points and len(durations)==len(points)-1"), c)
  else
    swipeExtSegs env durations.length ((points.zip points.tail).zip durations).enum c

/-- Outcome of one iteration of the retry loop in
`MuMu12IPC.capture_display`: a frame was produced, an exception escapes
(only the re-raised `MowerExit` can), or fall through to the next attempt. -/
inductive AttemptOut where
  | success (img : Image)
  | raiseExc (e : PyExc)
  | retry

/-- One iteration of the `capture_display` attempt loop: ensure readiness
(its `MowerExit` re-raised, other exceptions caught with a state reset);
call `nemu_capture_display`; on status 0 build the frame (reinterpret as
height x width x 4, drop the alpha channel, flip vertically); on a non-zero
status reset `_conn`/`_display_id`, attempt a best-effort reconnect whose
exceptions are swallowed, and fall through to the next attempt. -/
def captureAttemptM (env : Env) (c : Ctx) : AttemptOut × Ctx :=
  match ensureReadyM env c with
  | (.error .mowerExit, c1) => (.raiseExc .mowerExit, c1)
  | (.error _, c1) =>
      (.retry, { c1 with st := { c1.st with conn := 0, displayId := -1 } })
  | (.ok _, c1) =>
      let ret := env.captureRet c1.tick
      let c2 : Ctx :=
        { c1 with tick := c1.tick + 1
                  trace := c1.trace ++ [NCall.nCaptureDisplay c1.st.conn c1.st.displayId] }
      if ret = 0 then
        (.success (flipud (frameFromBuffer (env.buf c1.tick))), c2)
      else
        let c3 : Ctx := { c2 with st := { c2.st with conn := 0, displayId := -1 } }
        let c4 : Ctx :=
          match connectM env c3 with
          | (.error _, cA) => cA
          | (.ok _, cA) => (getDisplayIdM env cA).2
        (.retry, c4)

/-- The attempt loop of `capture_display` (`attempts = 3`); on exhaustion,
invoke `self.device.exit()` once inside a catch-all that swallows whatever
it raises, and return the all-zero image. -/
def captureLoopM (env : Env) : Nat → Ctx → Except PyExc Image × Ctx
  | 0, c =>
      let _swallowed := env.exitBeh c.tick
      (.ok zerosImage, { c with tick := c.tick + 1, exits := c.exits + 1 })
  | fuel + 1, c =>
      match captureAttemptM env c with
      | (.success img, c1) => (.ok img, c1)
      | (.raiseExc e, c1) => (.error e, c1)
      | (.retry, c1) => captureLoopM env fuel c1

/-- Model of `MuMu12IPC.capture_display()`. -/
def captureDisplayM (env : Env) (c : Ctx) : Except PyExc Image × Ctx :=
  captureLoopM env 3 c

/-! ### Concrete fixtures used to evaluate the model -/

/-- The `info` query output of a running emulator. -/
def infoRunning : InfoData :=
  { is_android_started := true, player_state := none, is_process_started := true }

/-- The `info` query output of a stopped emulator. -/
def infoStopped : InfoData :=
  { is_android_started := false, player_state := none, is_process_started := false }

/-- A benign oracle: emulator running, every native call succeeds. -/
def env0 : Env :=
  { info := fun _ => .ok infoRunning
    setting := fun _ => .ok []
    connectRet := fun _ => 1
    displayRet := fun _ => 0
    captureRet := fun _ => 0
    buf := fun _ n => n % 256
    inputRet := fun _ => 0
    exitBeh := fun _ => .ok ()
    focusBeh := fun _ => .ok ()
    restartBeh := fun _ => .ok ()
    interpXY := fun x0 y0 _ _ _ _ => (x0, y0) }

/-- Oracle whose emulator is stopped. -/
def envStopped : Env := { env0 with info := fun _ => .ok infoStopped }

/-- Oracle whose `nemu_connect` returns the null handle. -/
def envRefused : Env := { env0 with connectRet := fun _ => 0 }

/-- Oracle whose input-event native calls fail with status 1. -/
def envInputFail : Env := { env0 with inputRet := fun _ => 1 }

/-- Oracle whose `nemu_capture_display` always fails with status 1. -/
def envCapFail : Env := { env0 with captureRet := fun _ => 1 }

/-- Fresh driver object: no session, no display, unresolved convention. -/
def ctx0 : Ctx :=
  { st := { conn := 0, displayId := -1, isNewCoord := none }
    tick := 0, trace := [], exits := 0 }

/-- A ready driver resolved to the legacy coordinate convention. -/
def ctxReady : Ctx :=
  { st := { conn := 7, displayId := 2, isNewCoord := some false }
    tick := 0, trace := [], exits := 0 }

/-- Lexicographic order on version triples as the spec words it:
`(a, b, c)` is at least `(4, 1, 21)`. -/
def lexGeSpec (a b c : Int) : Prop :=
  a > 4 ∨ (a = 4 ∧ (b > 1 ∨ (b = 1 ∧ c ≥ 21)))

instance (a b c : Int) : Decidable (lexGeSpec a b c) := by
  unfold lexGeSpec; infer_instance

/-- The try body of each input-event method, for uniform reasoning: every
method is its try body wrapped in the shared failure handler. -/
def tryOf : InputOp → Env → Ctx → Except PyExc Unit × Ctx
  | .touchDown x y, env, c => touchDownTry env x y c
  | .touchUp, env, c => touchUpTry env c
  | .keyDown code, env, c => keyDownTry env code c
  | .keyUp code, env, c => keyUpTry env code c
  | .fingerTouchDown fid x y, env, c => fingerTouchDownTry env fid x y c
  | .fingerTouchUp fid, env, c => fingerTouchUpTry env fid c

/-! ### Bookkeeping lemmas: no operation below ever touches the exit
counter except the dedicated failure handlers -/

theorem emuStateM_snd (env : Env) (c : Ctx) : (emuStateM env c).2 = bump c := by
  unfold emuStateM
  cases env.info c.tick <;> rfl

theorem connectM_exits (env : Env) (c : Ctx) :
    (connectM env c).2.exits = c.exits := by
  unfold connectM emuStateM
  cases env.info c.tick
  · rfl
  · simp only []
    split_ifs <;> rfl

theorem getDisplayIdLoop_exits (env : Env) :
    ∀ (fuel : Nat) (c : Ctx), (getDisplayIdLoop env fuel c).2.exits = c.exits := by
  intro fuel
  induction fuel with
  | zero => intro c; rfl
  | succ n ih =>
      intro c
      unfold getDisplayIdLoop
      dsimp only
      split_ifs
      · rfl
      · rw [ih]

theorem getDisplayIdM_exits (env : Env) (c : Ctx) :
    (getDisplayIdM env c).2.exits = c.exits :=
  getDisplayIdLoop_exits env 20 c

theorem ensureBodyM_exits (env : Env) (c : Ctx) :
    (ensureBodyM env c).2.exits = c.exits := by
  unfold ensureBodyM
  rcases h1 : (if c.st.conn = 0 then connectM env c else (.ok (), c)) with ⟨r, c1⟩
  have hc1 : c1.exits = c.exits := by
    by_cases hc : c.st.conn = 0
    · rw [if_pos hc] at h1
      have := connectM_exits env c
      rw [h1] at this
      exact this
    · rw [if_neg hc] at h1
      cases h1
      rfl
  cases r
  · simp [hc1]
  · simp only []
    split_ifs
    · rw [getDisplayIdM_exits, hc1]
    · exact hc1

theorem retryLoop_exits (env : Env) :
    ∀ (fuel : Nat) (last : Option PyExc) (c : Ctx),
      (retryLoop env last fuel c).2.exits = c.exits := by
  intro fuel
  induction fuel with
  | zero => intro last c; cases last <;> rfl
  | succ n ih =>
      intro last c
      unfold retryLoop
      rcases h1 : ensureBodyM env c with ⟨r, c1⟩
      have hc1 : c1.exits = c.exits := by
        have := ensureBodyM_exits env c
        rw [h1] at this
        exact this
      rcases r with e | a
      · cases e <;> simp [PyExc.isRuntimeError, ih, hc1, bump]
      · exact hc1

theorem ensureReadyM_exits (env : Env) (c : Ctx) :
    (ensureReadyM env c).2.exits = c.exits :=
  retryLoop_exits env 3 none c

theorem emuVersionM_exits (env : Env) (c : Ctx) :
    (emuVersionM env c).2.exits = c.exits := by
  unfold emuVersionM
  cases env.setting c.tick
  · rfl
  · simp only []
    rcases parseParts _ with _ | parts
    · rfl
    · simp only []
      split_ifs <;> rfl

theorem mapXYM_exits (env : Env) (x y : Int) (c : Ctx) :
    (mapXYM env x y c).2.exits = c.exits := by
  unfold mapXYM
  rcases c.st.isNewCoord with _ | b
  · rcases h1 : emuVersionM env c with ⟨r, c1⟩
    have hc1 : c1.exits = c.exits := by
      have := emuVersionM_exits env c
      rw [h1] at this
      exact this
    cases r <;> simpa using hc1
  · rfl

theorem tryOf_exits (op : InputOp) (env : Env) (c : Ctx) :
    (tryOf op env c).2.exits = c.exits := by
  have hens : ∀ r c1, ensureReadyM env c = (r, c1) → c1.exits = c.exits := by
    intro r c1 h
    have := ensureReadyM_exits env c
    rw [h] at this
    exact this
  have hmap : ∀ x y cA r2 c2, cA.exits = c.exits → mapXYM env x y cA = (r2, c2) →
      c2.exits = c.exits := by
    intro x y cA r2 c2 hA h
    have := mapXYM_exits env x y cA
    rw [h] at this
    rw [this, hA]
  cases op with
  | touchDown x y =>
      show (touchDownTry env x y c).2.exits = c.exits
      unfold touchDownTry
      rcases h1 : ensureReadyM env c with ⟨r, c1⟩
      have hc1 := hens r c1 h1
      cases r
      · exact hc1
      · dsimp only
        rcases h2 : mapXYM env x y c1 with ⟨r2, c2⟩
        have hc2 := hmap x y c1 r2 c2 hc1 h2
        cases r2 with
        | error e => exact hc2
        | ok p =>
            rcases p with ⟨tx, ty⟩
            dsimp only
            split_ifs <;> exact hc2
  | touchUp =>
      show (touchUpTry env c).2.exits = c.exits
      unfold touchUpTry
      rcases h1 : ensureReadyM env c with ⟨r, c1⟩
      have hc1 := hens r c1 h1
      cases r
      · exact hc1
      · dsimp only
        split_ifs <;> exact hc1
  | keyDown code =>
      show (keyDownTry env code c).2.exits = c.exits
      unfold keyDownTry
      rcases h1 : ensureReadyM env c with ⟨r, c1⟩
      have hc1 := hens r c1 h1
      cases r
      · exact hc1
      · dsimp only
        split_ifs <;> exact hc1
  | keyUp code =>
      show (keyUpTry env code c).2.exits = c.exits
      unfold keyUpTry
      rcases h1 : ensureReadyM env c with ⟨r, c1⟩
      have hc1 := hens r c1 h1
      cases r
      · exact hc1
      · dsimp only
        split_ifs <;> exact hc1
  | fingerTouchDown fid x y =>
      show (fingerTouchDownTry env fid x y c).2.exits = c.exits
      unfold fingerTouchDownTry
      rcases h1 : ensureReadyM env c with ⟨r, c1⟩
      have hc1 := hens r c1 h1
      cases r
      · exact hc1
      · dsimp only
        rcases h2 : mapXYM env x y c1 with ⟨r2, c2⟩
        have hc2 := hmap x y c1 r2 c2 hc1 h2
        cases r2 with
        | error e => exact hc2
        | ok p =>
            rcases p with ⟨tx, ty⟩
            dsimp only
            split_ifs <;> exact hc2
  | fingerTouchUp fid =>
      show (fingerTouchUpTry env fid c).2.exits = c.exits
      unfold fingerTouchUpTry
      rcases h1 : ensureReadyM env c with ⟨r, c1⟩
      have hc1 := hens r c1 h1
      cases r
      · exact hc1
      · dsimp only
        split_ifs <;> exact hc1

theorem runInput_eq (op : InputOp) (env : Env) (c : Ctx) :
    runInput op env c = withExitOnError env (tryOf op env c) := by
  cases op <;> rfl

theorem withExitOnError_of_ok (env : Env) (c : Ctx) (a : Unit) :
    withExitOnError env (.ok a, c) = (.ok a, c) := rfl

theorem withExitOnError_of_error (env : Env) (c : Ctx) (e : PyExc) :
    withExitOnError env (.error e, c) =
      (env.exitBeh c.tick,
        { c with st := { c.st with conn := 0, displayId := -1 }
                 tick := c.tick + 1
                 exits := c.exits + 1 }) := rfl

/-! ### Claim C6: the handle/display joint-validity invariant -/

/-- Counterexample to C6: between the two consecutive public calls
`connect()` and the next one, the driver state is half valid — a successful
connect leaves the session handle non-zero while the display id is still
`-1`, violating the claimed valid-together-or-invalid-together invariant. -/
theorem c6_half_valid_after_connect :
    (connectM env0 ctx0).1 = .ok () ∧
    (connectM env0 ctx0).2.st.conn = 1 ∧
    (connectM env0 ctx0).2.st.displayId = -1 ∧
    ¬(((connectM env0 ctx0).2.st.conn ≠ 0 ∧ 0 ≤ (connectM env0 ctx0).2.st.displayId) ∨
      ((connectM env0 ctx0).2.st.conn = 0 ∧ (connectM env0 ctx0).2.st.displayId = -1)) := by
  refine ⟨by decide, by decide, by decide, ?_⟩
  decide

/-- C6 as amended: failure-path invalidation is atomic — whenever an
input-event operation fires the owner's exit signal (its failure handler
ran), the session handle and the display id have been reset together to
`(0, -1)`; but the original joint-validity invariant itself is refuted by
the half-valid state after a successful `connect()`. -/
theorem c6_amended_atomic_invalidation (op : InputOp) (env : Env) (c : Ctx)
    (h : (runInput op env c).2.exits = c.exits + 1) :
    (runInput op env c).2.st.conn = 0 ∧ (runInput op env c).2.st.displayId = -1 := by
  rw [runInput_eq] at h ⊢
  rcases ht : tryOf op env c with ⟨r, c1⟩
  have hc1 : c1.exits = c.exits := by
    have := tryOf_exits op env c
    rw [ht] at this
    exact this
  rcases r with e | a
  · rw [withExitOnError_of_error]
    exact ⟨rfl, rfl⟩
  · rw [ht, withExitOnError_of_ok] at h
    dsimp only at h
    omega

/-- Witness for the amended C6: a failed `key_down` leaves `(0, -1)`. -/
theorem c6_amended_atomic_invalidation_witness :
    (runInput (.keyDown 5) envInputFail ctxReady).2.st.conn = 0 ∧
    (runInput (.keyDown 5) envInputFail ctxReady).2.st.displayId = -1 :=
  c6_amended_atomic_invalidation (.keyDown 5) envInputFail ctxReady (by decide)

/-! ### Claim C7: input-event failure propagation -/

/-- Counterexample to C7: a `key_down` whose native call returns status 1
invalidates the session and signals the owner, but then returns normally —
`Except.ok ()` — instead of raising the error to the caller. -/
theorem c7_input_failure_returns_normally :
    (keyDownM envInputFail 5 ctxReady).1 = .ok () ∧
    (keyDownM envInputFail 5 ctxReady).2.exits = ctxReady.exits + 1 ∧
    (keyDownM envInputFail 5 ctxReady).2.st.conn = 0 ∧
    (keyDownM envInputFail 5 ctxReady).2.st.displayId = -1 := by
  refine ⟨by decide, by decide, by decide, by decide⟩

/-- C7 as amended: for every input-event operation, when the owner's exit
signal itself returns normally, the operation either succeeds without
signaling, or — on native failure or retry exhaustion — invalidates the
session state to `(0, -1)`, signals the owner exactly once, and returns
normally (it does not raise the error to the caller). -/
theorem c7_amended_input_failure_path (op : InputOp) (env : Env) (c : Ctx)
    (hexit : ∀ t, env.exitBeh t = .ok ()) :
    ((runInput op env c).1 = .ok () ∧ (runInput op env c).2.exits = c.exits) ∨
    ((runInput op env c).1 = .ok () ∧ (runInput op env c).2.exits = c.exits + 1 ∧
      (runInput op env c).2.st.conn = 0 ∧ (runInput op env c).2.st.displayId = -1) := by
  rw [runInput_eq]
  rcases ht : tryOf op env c with ⟨r, c1⟩
  have hc1 : c1.exits = c.exits := by
    have := tryOf_exits op env c
    rw [ht] at this
    exact this
  rcases r with e | a
  · right
    rw [withExitOnError_of_error, hexit]
    exact ⟨rfl, by simpa using hc1, rfl, rfl⟩
  · left
    rw [withExitOnError_of_ok]
    exact ⟨rfl, hc1⟩

/-- Witness for the amended C7: a failed `touch_down` takes the
invalidate-signal-return branch. -/
theorem c7_amended_input_failure_path_witness :
    ((runInput (.touchDown 10 20) envInputFail ctxReady).1 = .ok () ∧
      (runInput (.touchDown 10 20) envInputFail ctxReady).2.exits = ctxReady.exits) ∨
    ((runInput (.touchDown 10 20) envInputFail ctxReady).1 = .ok () ∧
      (runInput (.touchDown 10 20) envInputFail ctxReady).2.exits = ctxReady.exits + 1 ∧
      (runInput (.touchDown 10 20) envInputFail ctxReady).2.st.conn = 0 ∧
      (runInput (.touchDown 10 20) envInputFail ctxReady).2.st.displayId = -1) :=
  c7_amended_input_failure_path (.touchDown 10 20) envInputFail ctxReady (fun _ => rfl)

/-! ### Capture-path lemmas -/

theorem getDisplayIdLoop_result (env : Env) :
    ∀ (fuel : Nat) (c : Ctx),
      (getDisplayIdLoop env fuel c).1 = .ok () ∨
      (getDisplayIdLoop env fuel c).1 = .error .displayTimeout := by
  intro fuel
  induction fuel with
  | zero => intro c; right; rfl
  | succ n ih =>
      intro c
      unfold getDisplayIdLoop
      dsimp only
      split_ifs
      · left; rfl
      · exact ih _

theorem connectM_error_cases (env : Env) (c : Ctx) (e : PyExc)
    (h : (connectM env c).1 = .error e) :
    e = .emulatorNotRunning ∨ e = .connectionRefused ∨ env.info c.tick = .error e := by
  unfold connectM emuStateM at h
  rcases hi : env.info c.tick with e2 | d
  · rw [hi] at h
    dsimp only at h
    cases h
    right; right; rfl
  · rw [hi] at h
    dsimp only at h
    by_cases hs : emuStateOf d ≠ "running"
    · rw [if_pos hs] at h
      cases h
      left; rfl
    · rw [if_neg hs] at h
      by_cases hz : env.connectRet (bump c).tick = 0
      · rw [if_pos hz] at h
        cases h
        right; left; rfl
      · rw [if_neg hz] at h
        cases h

theorem ensureBodyM_error_cases (env : Env) (c : Ctx) (e : PyExc)
    (h : (ensureBodyM env c).1 = .error e) :
    e = .emulatorNotRunning ∨ e = .connectionRefused ∨ e = .displayTimeout ∨
    env.info c.tick = .error e := by
  unfold ensureBodyM at h
  rcases h1 : (if c.st.conn = 0 then connectM env c else (.ok (), c)) with ⟨r1, c1⟩
  rw [h1] at h
  rcases r1 with e1 | a
  · dsimp only at h
    cases h
    by_cases hc : c.st.conn = 0
    · rw [if_pos hc] at h1
      have h2 : (connectM env c).1 = .error e := by rw [h1]
      rcases connectM_error_cases env c e h2 with h3 | h3 | h3
      · left; exact h3
      · right; left; exact h3
      · right; right; right; exact h3
    · rw [if_neg hc] at h1
      cases h1
  · dsimp only at h
    by_cases hd : c1.st.displayId < 0
    · rw [if_pos hd] at h
      rcases getDisplayIdLoop_result env 20 c1 with h2 | h2
      · rw [show getDisplayIdM env c1 = getDisplayIdLoop env 20 c1 from rfl, h2] at h
        cases h
      · rw [show getDisplayIdM env c1 = getDisplayIdLoop env 20 c1 from rfl, h2] at h
        cases h
        right; right; left; rfl
    · rw [if_neg hd] at h
      cases h

theorem ensureBodyM_not_mower (env : Env) (c : Ctx)
    (hinfo : ∀ t, env.info t ≠ .error .mowerExit) :
    (ensureBodyM env c).1 ≠ .error .mowerExit := by
  intro h
  rcases ensureBodyM_error_cases env c _ h with h1 | h1 | h1 | h1
  · cases h1
  · cases h1
  · cases h1
  · exact hinfo c.tick h1

theorem retryLoop_not_mower (env : Env)
    (hbody : ∀ c, (ensureBodyM env c).1 ≠ .error .mowerExit) :
    ∀ (fuel : Nat) (last : Option PyExc), last ≠ some .mowerExit →
      ∀ c, (retryLoop env last fuel c).1 ≠ .error .mowerExit := by
  intro fuel
  induction fuel with
  | zero =>
      intro last hlast c h
      cases last with
      | none => simp [retryLoop] at h
      | some e =>
          unfold retryLoop at h
          dsimp only at h
          cases h
          exact hlast rfl
  | succ n ih =>
      intro last hlast c h
      unfold retryLoop at h
      rcases hb : ensureBodyM env c with ⟨r, c1⟩
      rw [hb] at h
      rcases r with e | a
      · cases e
        case mowerExit => exact hbody c (by rw [hb])
        all_goals
          revert h
          dsimp only
          split_ifs <;> intro h <;> exact ih _ (by simp) _ h
      · dsimp only at h
        cases h

theorem ensureReadyM_not_mower (env : Env) (c : Ctx)
    (hinfo : ∀ t, env.info t ≠ .error .mowerExit) :
    (ensureReadyM env c).1 ≠ .error .mowerExit :=
  retryLoop_not_mower env (fun c2 => ensureBodyM_not_mower env c2 hinfo)
    3 none (by simp) c

theorem reconnect_exits (env : Env) (c : Ctx) :
    (match connectM env c with
     | (.error _, cA) => cA
     | (.ok _, cA) => (getDisplayIdM env cA).2).exits = c.exits := by
  rcases h : connectM env c with ⟨r, cA⟩
  have hA : cA.exits = c.exits := by
    have := connectM_exits env c
    rw [h] at this
    exact this
  cases r
  · exact hA
  · rw [getDisplayIdM_exits]
    exact hA

theorem captureAttemptM_exits (env : Env) (c : Ctx) :
    (captureAttemptM env c).2.exits = c.exits := by
  unfold captureAttemptM
  rcases h1 : ensureReadyM env c with ⟨r, c1⟩
  have hc1 : c1.exits = c.exits := by
    have := ensureReadyM_exits env c
    rw [h1] at this
    exact this
  rcases r with e | a
  · cases e <;> exact hc1
  · dsimp only
    split_ifs
    · exact hc1
    · rw [reconnect_exits]
      exact hc1

theorem captureAttemptM_raise (env : Env) (c : Ctx) (e : PyExc)
    (h : (captureAttemptM env c).1 = .raiseExc e) : e = .mowerExit := by
  unfold captureAttemptM at h
  rcases h1 : ensureReadyM env c with ⟨r, c1⟩
  rw [h1] at h
  rcases r with e2 | a
  · cases e2 <;> dsimp only at h <;> cases h
    rfl
  · dsimp only at h
    split_ifs at h

theorem captureAttemptM_success (env : Env) (c : Ctx) (img : Image)
    (h : (captureAttemptM env c).1 = .success img) :
    img.height = 1080 ∧ img.width = 1920 ∧ img.channels = 3 := by
  unfold captureAttemptM at h
  rcases h1 : ensureReadyM env c with ⟨r, c1⟩
  rw [h1] at h
  rcases r with e2 | a
  · cases e2 <;> dsimp only at h <;> cases h
  · dsimp only at h
    split_ifs at h
    cases h
    exact ⟨rfl, rfl, rfl⟩

theorem captureLoopM_classify (env : Env) :
    ∀ (fuel : Nat) (c : Ctx),
      (captureLoopM env fuel c).1 = .error .mowerExit ∨
      ∃ img, (captureLoopM env fuel c).1 = .ok img ∧
        img.height = 1080 ∧ img.width = 1920 ∧ img.channels = 3 := by
  intro fuel
  induction fuel with
  | zero => intro c; right; exact ⟨zerosImage, rfl, rfl, rfl, rfl⟩
  | succ n ih =>
      intro c
      unfold captureLoopM
      rcases hA : captureAttemptM env c with ⟨o, c1⟩
      cases o with
      | success img =>
          right
          obtain ⟨s1, s2, s3⟩ := captureAttemptM_success env c img (by rw [hA])
          exact ⟨img, rfl, s1, s2, s3⟩
      | raiseExc e =>
          left
          have he : e = .mowerExit := captureAttemptM_raise env c e (by rw [hA])
          rw [he]
      | retry => exact ih c1

theorem captureAttemptM_all_fail (env : Env) (c : Ctx)
    (hcap : ∀ t, env.captureRet t ≠ 0)
    (hinfo : ∀ t, env.info t ≠ .error .mowerExit) :
    (captureAttemptM env c).1 = .retry := by
  unfold captureAttemptM
  rcases h1 : ensureReadyM env c with ⟨r, c1⟩
  rcases r with e | a
  · cases e
    case mowerExit => exact absurd (by rw [h1]) (ensureReadyM_not_mower env c hinfo)
    all_goals rfl
  · dsimp only
    rw [if_neg (hcap c1.tick)]

theorem captureLoopM_all_fail (env : Env)
    (hcap : ∀ t, env.captureRet t ≠ 0)
    (hinfo : ∀ t, env.info t ≠ .error .mowerExit) :
    ∀ (fuel : Nat) (c : Ctx),
      (captureLoopM env fuel c).1 = .ok zerosImage ∧
      (captureLoopM env fuel c).2.exits = c.exits + 1 := by
  intro fuel
  induction fuel with
  | zero => intro c; exact ⟨rfl, rfl⟩
  | succ n ih =>
      intro c
      unfold captureLoopM
      rcases hA : captureAttemptM env c with ⟨o, c1⟩
      have ho : o = .retry := by
        have := captureAttemptM_all_fail env c hcap hinfo
        rw [hA] at this
        exact this
      subst ho
      have he : c1.exits = c.exits := by
        have := captureAttemptM_exits env c
        rw [hA] at this
        exact this
      obtain ⟨r1, r2⟩ := ih c1
      exact ⟨r1, by rw [r2, he]⟩

theorem ensureBodyM_valid (env : Env) (c : Ctx)
    (hconn : c.st.conn ≠ 0) (hdisp : 0 ≤ c.st.displayId) :
    ensureBodyM env c = (.ok (), c) := by
  unfold ensureBodyM
  rw [if_neg hconn]
  dsimp only
  rw [if_neg (not_lt.mpr hdisp)]

theorem ensureReadyM_valid (env : Env) (c : Ctx)
    (hconn : c.st.conn ≠ 0) (hdisp : 0 ≤ c.st.displayId) :
    ensureReadyM env c = (.ok (), c) := by
  show retryLoop env none 3 c = (.ok (), c)
  unfold retryLoop
  rw [ensureBodyM_valid env c hconn hdisp]

/-! ### Claim C2: coordinate-convention resolution and mapping -/

/-- The code's Python tuple comparison agrees with the spec's lexicographic
order on triples. -/
theorem tupleGe3_iff (a b c : Int) :
    tupleGe [a, b, c] verThreshold = true ↔ lexGeSpec a b c := by
  simp only [tupleGe, verThreshold, lexGeSpec]
  split_ifs <;> simp_all <;> omega

/-- C2: for every logical coordinate pair, a resolved version triple
lexicographically at least `(4, 1, 21)` yields the identity mapping and a
smaller triple yields the legacy mapping `(1080 - y, x)`; and under the
legacy convention `tap(100, 200)` issues `nemu_input_event_touch_down` with
mapped coordinates `(880, 100)`. -/
theorem c2_coordinate_mapping (a b c x y : Int) :
    (lexGeSpec a b c → mapAfterResolve a b c x y = (x, y)) ∧
    (¬lexGeSpec a b c → mapAfterResolve a b c x y = ((1080 : Int) - y, x)) ∧
    tapM env0 100 200 ctxReady =
      (.ok (), { ctxReady with
                 tick := 2
                 trace := [NCall.nTouchDown 7 2 880 100, NCall.nTouchUp 7 2] }) := by
  refine ⟨?_, ?_, by decide⟩
  · intro h
    unfold mapAfterResolve mapxyFlag
    rw [if_pos]
    simp [(tupleGe3_iff a b c).2 h]
  · intro h
    have hf : tupleGe [a, b, c] verThreshold = false := by
      rcases hb : tupleGe [a, b, c] verThreshold with _ | _
      · rfl
      · exact absurd ((tupleGe3_iff a b c).1 hb) h
    unfold mapAfterResolve mapxyFlag
    rw [if_neg]
    · norm_num [screenH]
    · simp [hf]

/-- Witness for C2 at the threshold triple and at the legacy triple. -/
theorem c2_coordinate_mapping_witness :
    mapAfterResolve 4 1 21 100 200 = (100, 200) ∧
    mapAfterResolve 0 0 0 100 200 = (880, 100) :=
  ⟨(c2_coordinate_mapping 4 1 21 100 200).1 (by decide),
   (c2_coordinate_mapping 0 0 0 100 200).2.1 (by decide)⟩

/-! ### Claim C4: swipe_ext validation -/

/-- C4: a gesture spec with fewer than 2 points, or with a duration list
whose length is not `len(points) - 1`, is rejected immediately as a
`ValueError`, with the context (native-call trace, session state, exit
count) completely unchanged. -/
theorem c4_swipe_ext_validation (env : Env) (c : Ctx)
    (points : List (Int × Int)) (durations : List Int)
    (h : points.length < 2 ∨ (durations.length : Int) ≠ (points.length : Int) - 1) :
    swipeExtM env points durations c =
      (.error (.valueError
        "swipe_ext requires at least 2 points and len(durations)==len(points)-1"), c) ∧
    (swipeExtM env points durations c).2.trace = c.trace ∧
    (swipeExtM env points durations c).2.st = c.st ∧
    (swipeExtM env points durations c).2.exits = c.exits := by
  have he : swipeExtM env points durations c =
      (.error (.valueError
        "swipe_ext requires at least 2 points and len(durations)==len(points)-1"), c) := by
    unfold swipeExtM
    rw [if_pos h]
  exact ⟨he, by rw [he], by rw [he], by rw [he]⟩

/-- Witness for C4: a one-point gesture is rejected. -/
theorem c4_swipe_ext_validation_witness :
    swipeExtM env0 [((0 : Int), (0 : Int))] [] ctx0 =
      (.error (.valueError
        "swipe_ext requires at least 2 points and len(durations)==len(points)-1"), ctx0) :=
  (c4_swipe_ext_validation env0 ctx0 [((0 : Int), (0 : Int))] [] (by decide)).1

/-! ### Claim C5: swipe_ext segment chaining -/

/-- C5 (code bug): on a perfectly valid gesture spec, the very first
segment's `self.swipe(...)` call raises
`TypeError: swipe got an unexpected keyword argument update`, because
`swipe_ext` passes `update=` and `func=` keyword arguments that `swipe`'s
signature does not declare.  No segment is ever executed, no native call is
issued, and the callback is never invoked. -/
theorem c5_swipe_ext_type_error :
    swipeExtM env0 [((0 : Int), (0 : Int)), (100, 100)] [500] ctx0 =
      (.error (.typeError "swipe got an unexpected keyword argument update"), ctx0) ∧
    firstBadSwipeKwarg = some "update" := by
  constructor
  · decide
  · decide

/-! ### Claim C8: connect preconditions -/

/-- C8: `connect()` with the management query reporting any state other
than running raises the emulator-not-running error with zero native calls;
and with a running emulator, a null handle from `nemu_connect` raises the
connection-refused error. -/
theorem c8_connect_preconditions (env : Env) (c : Ctx) (d : InfoData) :
    (env.info c.tick = .ok d → emuStateOf d ≠ "running" →
      connectM env c = (.error .emulatorNotRunning, bump c) ∧
      (connectM env c).2.trace = c.trace) ∧
    (env.info c.tick = .ok d → emuStateOf d = "running" →
      env.connectRet (c.tick + 1) = 0 →
      (connectM env c).1 = .error .connectionRefused) := by
  constructor
  · intro hinfo hstate
    have he : connectM env c = (.error .emulatorNotRunning, bump c) := by
      unfold connectM emuStateM
      rw [hinfo]
      simp [hstate]
    exact ⟨he, by rw [he]; rfl⟩
  · intro hinfo hstate hzero
    unfold connectM emuStateM
    rw [hinfo]
    simp [hstate, bump, hzero]

/-- Witness for C8: stopped emulator raises emulator-not-running; null
handle raises connection-refused. -/
theorem c8_connect_preconditions_witness :
    connectM envStopped ctx0 = (.error .emulatorNotRunning, bump ctx0) ∧
    (connectM envRefused ctx0).1 = .error .connectionRefused :=
  ⟨((c8_connect_preconditions envStopped ctx0 infoStopped).1 (by decide) (by decide)).1,
   (c8_connect_preconditions envRefused ctx0 infoRunning).2 (by decide) (by decide) (by decide)⟩

/-! ### Claim C10: version fallback on missing core_version -/

/-- C10: when the `setting` query data has no `core_version` key, the
resolver falls back to the string `"0.0.0"`, parses it as `(0, 0, 0)`,
which is below the `(4, 1, 21)` threshold, so the legacy mapping
`(1080 - y, x)` is cached. -/
theorem c10_version_fallback (env : Env) (c : Ctx)
    (data : List (String × String)) (x y : Int)
    (hset : env.setting c.tick = .ok data)
    (hmiss : data.lookup "core_version" = none)
    (hflag : c.st.isNewCoord = none) :
    emuVersionM env c =
      (.ok [0, 0, 0], { bump c with st := { c.st with isNewCoord := some false } }) ∧
    mapxyFlag (some false) x y = ((1080 : Int) - y, x) := by
  constructor
  · have h1 : coreVersionOf data = "0.0.0" := by
      unfold coreVersionOf
      rw [hmiss]
      rfl
    have h2 : parseParts (coreVersionOf data) = some [0, 0, 0] := by
      rw [h1]
      decide
    have h3 : tupleGe [0, 0, 0] verThreshold = false := by decide
    unfold emuVersionM
    rw [hset]
    simp only [h2, h3, bump, hflag]
    simp [hflag]
  · norm_num [mapxyFlag, screenH]

/-- Witness for C10 on empty setting data. -/
theorem c10_version_fallback_witness :
    emuVersionM env0 ctx0 =
      (.ok [0, 0, 0], { bump ctx0 with st := { ctx0.st with isNewCoord := some false } }) ∧
    mapxyFlag (some false) 100 200 = (880, 100) :=
  ⟨(c10_version_fallback env0 ctx0 [] 100 200 rfl rfl rfl).1,
   (c10_version_fallback env0 ctx0 [] 100 200 rfl rfl rfl).2⟩

/-! ### Claim C1: capture retry exhaustion degrades, never raises -/

/-- C1: when the native capture status is non-zero at every tick (so every
reached capture attempt fails) and the distinguished cancellation error
never arises, `capture_display` does not raise: it returns the all-zero
image of shape `(1080, 1920, 3)` and invokes the owner's terminal
`device.exit()` signal exactly once. -/
theorem c1_capture_exhaustion (env : Env) (c : Ctx)
    (hcap : ∀ t, env.captureRet t ≠ 0)
    (hinfo : ∀ t, env.info t ≠ .error .mowerExit) :
    (captureDisplayM env c).1 = .ok zerosImage ∧
    (captureDisplayM env c).2.exits = c.exits + 1 ∧
    zerosImage.height = 1080 ∧ zerosImage.width = 1920 ∧ zerosImage.channels = 3 ∧
    (∀ i j ch, zerosImage.pix i j ch = 0) := by
  obtain ⟨r1, r2⟩ := captureLoopM_all_fail env hcap hinfo 3 c
  exact ⟨r1, r2, rfl, rfl, rfl, fun i j ch => rfl⟩

/-- Witness for C1: an oracle whose capture always returns status 1 gives
the zero frame and one exit signal. -/
theorem c1_capture_exhaustion_witness :
    (captureDisplayM envCapFail ctxReady).1 = .ok zerosImage ∧
    (captureDisplayM envCapFail ctxReady).2.exits = ctxReady.exits + 1 ∧
    zerosImage.height = 1080 ∧ zerosImage.width = 1920 ∧ zerosImage.channels = 3 ∧
    (∀ i j ch, zerosImage.pix i j ch = 0) :=
  c1_capture_exhaustion envCapFail ctxReady
    (fun _ => by show (1 : Int) ≠ 0; decide)
    (fun _ => by show Except.ok infoRunning ≠ Except.error PyExc.mowerExit; decide)

/-! ### Claim C3: successful capture shape and pixel layout -/

/-- C3: from a ready session, a capture whose native status is 0 returns
exactly the frame obtained by reinterpreting the raw buffer as
height x width x 4, dropping the fourth channel and flipping the vertical
axis: shape `(1080, 1920, 3)` and pixel `(i, j, ch)` equal to buffer byte
`((1080 - 1 - i) * 1920 + j) * 4 + ch`. -/
theorem c3_capture_success_shape (env : Env) (c : Ctx)
    (hconn : c.st.conn ≠ 0) (hdisp : 0 ≤ c.st.displayId)
    (hret : env.captureRet c.tick = 0) :
    (captureDisplayM env c).1 = .ok (flipud (frameFromBuffer (env.buf c.tick))) ∧
    (flipud (frameFromBuffer (env.buf c.tick))).height = 1080 ∧
    (flipud (frameFromBuffer (env.buf c.tick))).width = 1920 ∧
    (flipud (frameFromBuffer (env.buf c.tick))).channels = 3 ∧
    (∀ i j ch, (flipud (frameFromBuffer (env.buf c.tick))).pix i j ch =
      env.buf c.tick (((1080 - 1 - i) * 1920 + j) * 4 + ch)) := by
  have hA : captureAttemptM env c =
      (.success (flipud (frameFromBuffer (env.buf c.tick))),
        { c with tick := c.tick + 1
                 trace := c.trace ++ [NCall.nCaptureDisplay c.st.conn c.st.displayId] }) := by
    unfold captureAttemptM
    rw [ensureReadyM_valid env c hconn hdisp]
    dsimp only
    rw [if_pos hret]
  refine ⟨?_, rfl, rfl, rfl, fun i j ch => rfl⟩
  show (captureLoopM env 3 c).1 = _
  unfold captureLoopM
  rw [hA]

/-- Witness for C3 with the benign oracle and a ready session. -/
theorem c3_capture_success_shape_witness :
    (captureDisplayM env0 ctxReady).1 =
      .ok (flipud (frameFromBuffer (env0.buf ctxReady.tick))) ∧
    (flipud (frameFromBuffer (env0.buf ctxReady.tick))).pix 0 5 2 =
      env0.buf ctxReady.tick (((1080 - 1 - 0) * 1920 + 5) * 4 + 2) :=
  ⟨(c3_capture_success_shape env0 ctxReady (by decide) (by decide) rfl).1,
   (c3_capture_success_shape env0 ctxReady (by decide) (by decide) rfl).2.2.2.2 0 5 2⟩

/-! ### Claim C9: capture_display is total up to MowerExit -/

/-- C9: for every oracle and driver state, `capture_display` either returns
an image of shape `(1080, 1920, 3)` or propagates the distinguished
cancellation error `MowerExit`; no other exception ever escapes, whichever
internal step (readiness, reconnect, native capture, terminal exit signal)
fails. -/
theorem c9_capture_total (env : Env) (c : Ctx) :
    (captureDisplayM env c).1 = .error .mowerExit ∨
    ∃ img, (captureDisplayM env c).1 = .ok img ∧
      img.height = 1080 ∧ img.width = 1920 ∧ img.channels = 3 :=
  captureLoopM_classify env 3 c

end Nower
